import Mathlib

/-!
Verification of the CitiBike probability engine (`backend/prob_calc.py` and the
HTTP error mapping in `backend/main.py`).

The Python code is shallowly embedded:

* machine floats become `ℚ` (every constant in the engine is a small decimal,
  and all arithmetic on the claim-relevant paths is exact in `ℚ`);
* the relational store (tables `stations`, `trips`, `station_mapping`) becomes
  explicit lists of rows carried in a `Store` structure;
* each SQL query is translated to a pure list computation with the same
  semantics (filters, group-by, distinct counts, left joins);
* a query that can raise is modelled by a boolean failure flag on the `Store`:
  when the flag is set the embedded function takes exactly the branch the
  Python `except` handler takes;
* Python exceptions that escape a function become `Except PyError _`, where
  `PyError.valueError` models `ValueError` and `PyError.otherError` models any
  other exception type.

Timestamps are epoch seconds (`Option ℤ`, `none` for SQL NULL); the
day-of-week of an epoch second is computed from the epoch origin (1970-01-01
was a Thursday), matching `EXTRACT(DOW FROM ...)` (0 = Sunday .. 6 = Saturday).
-/

/-- Exceptions, by their Python type: `ValueError` versus everything else. -/
inductive PyError where
  | valueError (msg : String)
  | otherError (msg : String)
deriving DecidableEq, Repr

/-- Row of the `stations` table. -/
structure StationRow where
  station_id : String
  name : String
  latitude : ℚ
  longitude : ℚ
deriving DecidableEq, Repr

/-- Row of the `station_mapping` table. -/
structure MappingRow where
  uuid_station_id : String
  numeric_station_id : Nat
  station_name : String
deriving DecidableEq, Repr

/-- Row of the `trips` table; `none` timestamps model SQL NULL. -/
structure Trip where
  bike_id : String
  start_station_id : Nat
  end_station_id : Nat
  started_at : Option Int
  ended_at : Option Int
deriving DecidableEq, Repr

/-- The read-only store together with failure flags, one per SQL query site;
a set flag means that query raises when executed. -/
structure Store where
  stations : List StationRow
  mapping : List MappingRow
  trips : List Trip
  statsQueryFails : Bool := false
  nameQueryFails : Bool := false
  patternsQueryFails : Bool := false
  simplifiedQueryFails : Bool := false
  fallbackQueryFails : Bool := false
deriving Repr

/-- Day of week of an epoch second, 0 = Sunday .. 6 = Saturday
(models `EXTRACT(DOW FROM t.started_at)`). -/
def dowOf (s : Int) : Int :=
  (s.fdiv 86400 + 4).emod 7

/-- Time-pattern filter applied by every per-station trip query: `"weekday"`
keeps DOW 1..5, `"weekend"` keeps DOW 0 or 6, anything else keeps all rows.
A NULL `started_at` fails both day-of-week comparisons (SQL NULL semantics). -/
def matchesPattern (time_pattern : String) (t : Trip) : Bool :=
  if time_pattern = "weekday" then
    match t.started_at with
    | some s => 1 ≤ dowOf s && dowOf s ≤ 5
    | none => false
  else if time_pattern = "weekend" then
    match t.started_at with
    | some s => dowOf s == 0 || dowOf s == 6
    | none => false
  else
    true

/-- Trips departing the given internal (numeric) station id that pass the
time-pattern filter: `WHERE t.start_station_id = :numeric_station_id {time_filter}`. -/
def stationTrips (store : Store) (numeric_station_id : Nat) (time_pattern : String) : List Trip :=
  store.trips.filter (fun t => t.start_station_id == numeric_station_id && matchesPattern time_pattern t)

/-- Python's `str.split(sep)` for a single separator character, on the
character list of the string. Always returns `count sep l + 1` parts. -/
def splitOnChar (sep : Char) : List Char → List (List Char)
  | [] => [[]]
  | x :: xs =>
    let r := splitOnChar sep xs
    if x = sep then [] :: r else (x :: r.headI) :: r.tail

/-- Embedding of `is_uuid_format` (prob_calc.py:110-136): a test-fixture id
(`"test-uuid-"` prefix with exactly two hyphens overall), or a 36-character
string with exactly four hyphens whose hyphen-separated parts have lengths
8, 4, 4, 4, 12. Python's `startswith`, `count` and `split` are read off the
character list of the string. No hexadecimal check is performed. -/
def is_uuid_format (station_id : String) : Bool :=
  if "test-uuid-".data.isPrefixOf station_id.data && station_id.data.count '-' == 2 then
    true
  else if station_id.data.length == 36 && station_id.data.count '-' == 4 then
    match splitOnChar '-' station_id.data with
    | [p0, p1, p2, p3, p4] =>
        p0.length == 8 && p1.length == 4 && p2.length == 4 && p3.length == 4 && p4.length == 12
    | _ => false
  else
    false

/-- Duration of a trip in minutes as used by the station-statistics query:
`CASE WHEN both timestamps non-NULL THEN (ended - started)/60 ELSE 0 END`. -/
def durationOrZero (t : Trip) : ℚ :=
  match t.started_at, t.ended_at with
  | some s, some e => ((e - s : Int) : ℚ) / 60
  | _, _ => 0

/-- Duration of a trip in minutes when both timestamps are present, else
`none`; `AVG(EXTRACT(EPOCH ...))` skips NULL rows, unlike `durationOrZero`. -/
def durationOpt (t : Trip) : Option ℚ :=
  match t.started_at, t.ended_at with
  | some s, some e => some (((e - s : Int) : ℚ) / 60)
  | _, _ => none

/-- Rows the statistics LEFT JOIN produces for one station: one `none` row
when a join arm is empty (NULL-padded row), the matching trips otherwise. -/
def joinRows (store : Store) (s : StationRow) : List (Option Trip) :=
  let sms := store.mapping.filter (fun sm => sm.uuid_station_id == s.station_id)
  if sms = [] then [none]
  else sms.flatMap (fun sm =>
    let ts := store.trips.filter (fun t => t.start_station_id == sm.numeric_station_id)
    if ts = [] then [none] else ts.map some)

/-- Per-station aggregate as stored in `station_stats`. -/
structure StationStats where
  station_id : String
  name : String
  latitude : ℚ
  longitude : ℚ
  total_trips : Nat
  unique_bikes : Nat
  avg_trip_duration : ℚ
deriving DecidableEq, Repr

/-- Aggregate row for one station: `COUNT(t.id)`, `COUNT(DISTINCT t.bike_id)`
and `AVG(CASE ... END)` over the LEFT JOIN rows (`row.x or 0` turns the NULL
aggregates of a trip-less station into 0). -/
def stationAggregate (store : Store) (s : StationRow) : StationStats :=
  let rows := joinRows store s
  let ts := rows.filterMap id
  { station_id := s.station_id
    name := s.name
    latitude := s.latitude
    longitude := s.longitude
    total_trips := ts.length
    unique_bikes := ((ts.map Trip.bike_id).dedup).length
    avg_trip_duration :=
      if rows.length = 0 then 0
      else (rows.map (fun r => (r.map durationOrZero).getD 0)).sum / rows.length }

/-- Embedding of `load_station_statistics` (prob_calc.py:24-83): one aggregate
query over all stations; any exception is caught and an empty dict returned. -/
def load_station_statistics (store : Store) : List StationStats :=
  if store.statsQueryFails then []
  else store.stations.map (stationAggregate store)

/-- Lookup in the `station_stats` dict built from the loaded list
(`self.station_stats[s['station_id']] = s`, last row wins on a repeated key,
hence the lookup on the reversed list). -/
def lookupStats (stats : List StationStats) (uuid_station_id : String) : Option StationStats :=
  stats.reverse.find? (fun s => s.station_id == uuid_station_id)

/-- Embedding of `get_uuid_by_station_name` (prob_calc.py:85-108): exact-match
lookup of `station_mapping.station_name`; a missing row raises
`ValueError("Station '<name>' not found in database")`; a query failure is
logged and re-raised unchanged. -/
def get_uuid_by_station_name (store : Store) (station_name : String) : Except PyError String :=
  if store.nameQueryFails then
    .error (.otherError "database error in station name lookup")
  else
    match store.mapping.find? (fun sm => sm.station_name == station_name) with
    | some row => .ok row.uuid_station_id
    | none => .error (.valueError ("Station '" ++ station_name ++ "' not found in database"))

/-- Does trip `t1` (departing the station) have a return by the same bike to
`numeric_station_id` within 7 days of its end? Mirrors the EXISTS subquery:
`t2.started_at > t1.ended_at AND t2.started_at <= t1.ended_at + 7 days`;
a NULL on either side makes the comparison false. -/
def hasReturnWithin7Days (store : Store) (numeric_station_id : Nat) (t1 : Trip) : Bool :=
  store.trips.any (fun t2 =>
    t2.bike_id == t1.bike_id &&
    t2.end_station_id == numeric_station_id &&
    (match t1.ended_at, t2.started_at with
     | some e1, some s2 => e1 < s2 && s2 ≤ e1 + 7 * 86400
     | _, _ => false))

/-- Embedding of `_calculate_bike_return_rate_fallback` (prob_calc.py:373-408):
`clamp(1 / (total_trips / unique_bikes), 0, 0.5)` from the per-station counts,
`0.0` with no bikes, and the constant `0.1` if this query raises too. -/
def calculate_bike_return_rate_fallback (store : Store) (numeric_station_id : Nat)
    (time_pattern : String) : ℚ :=
  if store.fallbackQueryFails then 0.1
  else
    let st := stationTrips store numeric_station_id time_pattern
    let unique_bikes := ((st.map Trip.bike_id).dedup).length
    let total_trips := st.length
    if unique_bikes > 0 then
      let bike_turnover : ℚ := (total_trips : ℚ) / (unique_bikes : ℚ)
      max 0 (min 0.5 (1 / bike_turnover))
    else 0

/-- Embedding of `_calculate_bike_return_rate_simplified` (prob_calc.py:317-371):
distinct departing bikes with a 7-day return over distinct departing bikes;
`0.0` when no bikes depart; on a query exception, falls through to the
fallback computation. -/
def calculate_bike_return_rate_simplified (store : Store) (numeric_station_id : Nat)
    (time_pattern : String) : ℚ :=
  if store.simplifiedQueryFails then
    calculate_bike_return_rate_fallback store numeric_station_id time_pattern
  else
    let st := stationTrips store numeric_station_id time_pattern
    let total_bikes := (st.map Trip.bike_id).dedup
    let returning := total_bikes.filter (fun b =>
      st.any (fun t1 => t1.bike_id == b && hasReturnWithin7Days store numeric_station_id t1))
    if total_bikes.length > 0 then
      (returning.length : ℚ) / (total_bikes.length : ℚ)
    else 0

/-- Per-bike row of the movement-patterns query. -/
structure BikePattern where
  bike_id : String
  trip_count : Nat
  avg_duration : ℚ
  unique_destinations : Nat
deriving DecidableEq, Repr

/-- Result dict of `_get_bike_movement_patterns_optimized`. -/
structure BikePatterns where
  total_bikes_analyzed : Nat
  avg_trips_per_bike : ℚ
  bike_return_rate : ℚ
  patterns : List BikePattern
deriving DecidableEq, Repr

/-- Aggregate of one bike's trips from the station: `COUNT(*)`,
`AVG(...)` over rows with both timestamps (SQL AVG skips NULLs),
`COUNT(DISTINCT t.end_station_id)`. -/
def bikeAggregate (st : List Trip) (b : String) : BikePattern :=
  let ts := st.filter (fun t => t.bike_id == b)
  let ds := ts.filterMap durationOpt
  { bike_id := b
    trip_count := ts.length
    avg_duration := if ds = [] then 0 else ds.sum / ds.length
    unique_destinations := ((ts.map Trip.end_station_id).dedup).length }

/-- Embedding of `_get_bike_movement_patterns_optimized` (prob_calc.py:227-315):
UUID→numeric mapping lookup (zero-shape result if absent), per-bike group-by
ordered by trip count descending and truncated to 50 (SQL leaves tie order
unspecified; a stable merge sort is one admissible order), summary statistics,
top 10 sample. An exception anywhere makes the Python function return `{}`,
modelled as `none`. -/
def get_bike_movement_patterns_optimized (store : Store) (station_id : String)
    (time_pattern : String) : Option BikePatterns :=
  if store.patternsQueryFails then none
  else
    match store.mapping.find? (fun sm => sm.uuid_station_id == station_id) with
    | none => some { total_bikes_analyzed := 0, avg_trips_per_bike := 0,
                     bike_return_rate := 0, patterns := [] }
    | some sm =>
      let st := stationTrips store sm.numeric_station_id time_pattern
      let rows := ((st.map Trip.bike_id).dedup).map (bikeAggregate st)
      let patterns := (rows.mergeSort (fun a b => decide (b.trip_count ≤ a.trip_count))).take 50
      if patterns = [] then
        some { total_bikes_analyzed := 0, avg_trips_per_bike := 0,
               bike_return_rate := 0, patterns := [] }
      else
        some { total_bikes_analyzed := patterns.length
               avg_trips_per_bike := (patterns.map (fun p => (p.trip_count : ℚ))).sum / patterns.length
               bike_return_rate := calculate_bike_return_rate_simplified store sm.numeric_station_id time_pattern
               patterns := patterns.take 10 }

/-- Python `bike_patterns.get('bike_return_rate', 0.0)`: 0 on the empty dict
the patterns function returns after an exception. -/
def dictGetReturnRate (bike_patterns : Option BikePatterns) : ℚ :=
  match bike_patterns with
  | none => 0
  | some bp => bp.bike_return_rate

/-- Embedding of `_calculate_encounter_probability` (prob_calc.py:441-489).
The guarded division makes the Python `except` branch unreachable. -/
def calculate_encounter_probability (home_station : StationStats)
    (bike_patterns : Option BikePatterns) (riding_frequency : ℤ)
    (time_pattern : String) : ℚ :=
  if home_station.total_trips = 0 ∨ home_station.unique_bikes = 0 then 0
  else
    let bike_turnover_rate : ℚ := (home_station.total_trips : ℚ) / (home_station.unique_bikes : ℚ)
    let base_probability := min 0.3 (bike_turnover_rate / 1000)
    let frequency_multiplier := min 2 ((riding_frequency : ℚ) / 5)
    let return_rate := dictGetReturnRate bike_patterns
    let return_rate_multiplier := 1 + return_rate * 2
    let time_multiplier : ℚ :=
      if time_pattern = "weekday" then 1.2
      else if time_pattern = "weekend" then 0.8
      else 1
    let probability := base_probability * frequency_multiplier * return_rate_multiplier * time_multiplier
    max 0 (min 1 probability)

/-- Round a rational to the nearest integer, halves up: `⌊x + 1/2⌋`. -/
def roundQ (x : ℚ) : ℤ :=
  (2 * x.num + x.den).fdiv (2 * x.den)

/-- Python `f"{x:.1%}"` on the nonnegative exact rationals this file applies it
to: the value times 100, one decimal digit, a `%` sign; rational rounding
(half up at .05, which these inputs never hit) stands in for float rounding. -/
def formatPercent (x : ℚ) : String :=
  let n := (roundQ (x * 1000)).toNat
  toString (n / 10) ++ "." ++ toString (n % 10) ++ "%"

/-- Helper for `formatComma`: group a reversed digit list in threes. The fuel
argument (always at least the list length) keeps the recursion structural. -/
def commaChunksRevGo : Nat → List Char → List Char
  | 0, l => l
  | fuel + 1, l => if l.length ≤ 3 then l else l.take 3 ++ ',' :: commaChunksRevGo fuel (l.drop 3)

/-- Python `f"{n:,}"`: decimal digits with comma thousands separators. -/
def formatComma (n : Nat) : String :=
  String.mk ((commaChunksRevGo (toString n).data.length ((toString n).data.reverse)).reverse)

/-- Embedding of `_calculate_confidence_interval` (prob_calc.py:491-507):
sample-size margin (10% below 10 trips, 5% below 100, 2% otherwise), clamped
bounds, rendered as `"{lower:.1%} to {upper:.1%}"`. -/
def calculate_confidence_interval (probability : ℚ) (home_station : StationStats) : String :=
  let margin : ℚ :=
    if home_station.total_trips < 10 then 0.1
    else if home_station.total_trips < 100 then 0.05
    else 0.02
  let lower := max 0 (probability - margin)
  let upper := min 1 (probability + margin)
  formatPercent lower ++ " to " ++ formatPercent upper

/-- Embedding of `_generate_explanation` (prob_calc.py:509-543): banded
narrative with the interpolated statistics. Nothing in the embedded body can
raise, so the Python `except` branch is unreachable. -/
def generate_explanation (probability : ℚ) (home_station : StationStats)
    (bike_patterns : Option BikePatterns) (riding_frequency : ℤ)
    (time_pattern : String) : String :=
  let head := "Based on analysis of " ++ formatComma home_station.total_trips ++
    " trips from " ++ home_station.name ++ " involving " ++
    formatComma home_station.unique_bikes ++ " unique bikes, "
  let band :=
    if probability < 0.05 then
      "the probability is quite low. This station has high bike turnover, meaning bikes rarely return to the same location."
    else if probability < 0.15 then
      "the probability is moderate. While some bikes do return, the station's popularity means many different bikes pass through."
    else if probability < 0.30 then
      "the probability is relatively high. This station has good bike return patterns, increasing your chances of encountering the same bike."
    else
      "the probability is quite high. This station has excellent bike return patterns and consistent bike availability."
  head ++ band ++
    " With your " ++ toString riding_frequency ++ " rides per week on " ++ time_pattern ++ "s, " ++
    "and a bike return rate of " ++ formatPercent (dictGetReturnRate bike_patterns) ++ ", " ++
    "you have approximately a " ++ formatPercent probability ++ " chance of riding the same bike twice."

/-- The `station_info` sub-dict of the result. -/
structure StationInfo where
  name : String
  total_trips : Nat
  unique_bikes : Nat
  avg_trip_duration : ℚ
deriving DecidableEq, Repr

/-- Result dict of a successful probability calculation. -/
structure CalcResult where
  probability : ℚ
  confidence_interval : String
  explanation : String
  station_info : StationInfo
deriving DecidableEq, Repr

/-- Identifier resolution step of `calculate_bike_movement_probability`
(prob_calc.py:163-172): a UUID-shaped identifier is used directly, any other
identifier is resolved by exact name lookup in the mapping table. -/
def resolve_station_identifier (store : Store) (home_station_id : String) : Except PyError String :=
  if is_uuid_format home_station_id then .ok home_station_id
  else get_uuid_by_station_name store home_station_id

/-- Embedding of `calculate_bike_movement_probability` (prob_calc.py:138-225):
validation, identifier resolution, statistics load and lookup, patterns,
probability, confidence interval, explanation. The outer `try/except` logs and
re-raises, so it does not change the escaping exception. -/
def calculate_bike_movement_probability (store : Store) (home_station_id : String)
    (riding_frequency : ℤ) (time_pattern : String) : Except PyError CalcResult :=
  if riding_frequency ≤ 0 then
    .error (.valueError "Riding frequency must be a positive number")
  else if ¬ (time_pattern = "weekday" ∨ time_pattern = "weekend" ∨ time_pattern = "both") then
    .error (.valueError "Time pattern must be one of: weekday, weekend, both")
  else
    match resolve_station_identifier store home_station_id with
    | .error e => .error e
    | .ok uuid_station_id =>
      let station_stats := load_station_statistics store
      match lookupStats station_stats uuid_station_id with
      | none => .error (.valueError ("Station '" ++ home_station_id ++ "' not found in database"))
      | some home_station =>
        let bike_patterns := get_bike_movement_patterns_optimized store uuid_station_id time_pattern
        let probability := calculate_encounter_probability home_station bike_patterns riding_frequency time_pattern
        let confidence_interval := calculate_confidence_interval probability home_station
        let explanation := generate_explanation probability home_station bike_patterns riding_frequency time_pattern
        .ok { probability := probability
              confidence_interval := confidence_interval
              explanation := explanation
              station_info := { name := home_station.name
                                total_trips := home_station.total_trips
                                unique_bikes := home_station.unique_bikes
                                avg_trip_duration := home_station.avg_trip_duration } }

/-- Embedding of the module-level `calculate_probability` wrapper (prob_calc.py:545-562). -/
def calculate_probability (store : Store) (home_station_id : String)
    (riding_frequency : ℤ) (time_pattern : String) : Except PyError CalcResult :=
  calculate_bike_movement_probability store home_station_id riding_frequency time_pattern

/-- HTTP status produced by `calculate_probability_endpoint` (main.py:280-289):
200 on success, 400 for a `ValueError`, 500 for any other exception. -/
def endpointStatus (r : Except PyError CalcResult) : Nat :=
  match r with
  | .ok _ => 200
  | .error (.valueError _) => 400
  | .error (.otherError _) => 500

/-- Hexadecimal digit, as in the canonical textual UUID alphabet. -/
def isHexDigitChar (c : Char) : Bool :=
  c.isDigit || ('a' ≤ c && c ≤ 'f') || ('A' ≤ c && c ≤ 'F')

/-- The test-fixture shorthand of the spec: prefix `"test-uuid-"` and exactly
two hyphens in the whole string. -/
def testShorthand (s : String) : Prop :=
  "test-uuid-".data.isPrefixOf s.data = true ∧ s.data.count '-' = 2

/-- The four hyphen positions of the canonical 8-4-4-4-12 UUID layout. -/
def hyphenPosition (i : Nat) : Prop :=
  i = 8 ∨ i = 13 ∨ i = 18 ∨ i = 23

/-- The claim's canonical-UUID predicate, taken from the spec's words:
36 characters, hyphens exactly at the canonical positions, and a hexadecimal
digit at every other position. -/
def claimCanonicalHex (s : String) : Prop :=
  s.data.length = 36 ∧
  (∀ i, i < 36 → ((s.data[i]? = some '-') ↔ hyphenPosition i)) ∧
  (∀ i, i < 36 → ¬ hyphenPosition i → (s.data[i]?.any isHexDigitChar = true))

/-- The claim's full UUID-recognition predicate: canonical hexadecimal layout
or test-fixture shorthand. -/
def claimUuidPredicate (s : String) : Prop :=
  claimCanonicalHex s ∨ testShorthand s

/-- The amended canonical layout: 36 characters with hyphens exactly at the
canonical positions — the hexadecimal requirement dropped, which is all the
code actually checks. -/
def amendedCanonical (s : String) : Prop :=
  s.data.length = 36 ∧ (∀ i, i < 36 → ((s.data[i]? = some '-') ↔ hyphenPosition i))

/-- Join a split result back with the separator (left inverse of `splitOnChar`). -/
def interJoin (sep : Char) : List (List Char) → List Char
  | [] => []
  | [p] => p
  | p :: ps => p ++ sep :: interJoin sep ps

/-- The margin tiering exactly as the claim states it (`> 10000 → 0.02`,
`> 1000 → 0.05`, else `0.10`). -/
def claimedMargin (total_trips : Nat) : ℚ :=
  if total_trips > 10000 then 0.02 else if total_trips > 1000 then 0.05 else 0.1

/-- The confidence-interval string the claim predicts, built from
`claimedMargin` with the clamps and formatting of the claim. -/
def claimedConfidenceInterval (probability : ℚ) (home_station : StationStats) : String :=
  formatPercent (max 0 (probability - claimedMargin home_station.total_trips)) ++ " to " ++
    formatPercent (min 1 (probability + claimedMargin home_station.total_trips))

/-- Fixture: station statistics with 500 trips (between the two tierings'
thresholds, where the claimed margin and the code's margin disagree). -/
def station500 : StationStats :=
  { station_id := "test-uuid-500", name := "Mid Station", latitude := 0, longitude := 0,
    total_trips := 500, unique_bikes := 5, avg_trip_duration := 0 }

/-- Fixture: the §8 scenario-2 station: 10000 trips, 10 unique bikes. -/
def scenario2Station : StationStats :=
  { station_id := "test-uuid-s2", name := "Busy Station", latitude := 0, longitude := 0,
    total_trips := 10000, unique_bikes := 10, avg_trip_duration := 0 }

/-- Fixture: bike-patterns dict with return rate 0.0. -/
def scenario2Patterns : Option BikePatterns :=
  some { total_bikes_analyzed := 0, avg_trips_per_bike := 0, bike_return_rate := 0, patterns := [] }

/-- Fixture: station statistics with no trips at all. -/
def emptyStation : StationStats :=
  { station_id := "test-uuid-e", name := "Empty Station", latitude := 0, longitude := 0,
    total_trips := 0, unique_bikes := 0, avg_trip_duration := 0 }

/-- Fixture: an entirely empty store. -/
def store0 : Store :=
  { stations := [], mapping := [], trips := [] }

/-- Fixture: store whose return-rate queries (both tiers) raise. -/
def cstoreC3 : Store :=
  { stations := [], mapping := [], trips := [],
    simplifiedQueryFails := true, fallbackQueryFails := true }

/-- Fixture: a store with one station, reachable through the mapping table,
whose station-statistics query raises. -/
def cstoreC6 : Store :=
  { stations := [{ station_id := "test-uuid-1", name := "Foo", latitude := 0, longitude := 0 }],
    mapping := [{ uuid_station_id := "test-uuid-1", numeric_station_id := 1, station_name := "Foo" }],
    trips := [],
    statsQueryFails := true }

/-- Fixture: a healthy store with one trip-less station named "Foo" mapped to
the UUID-shaped identifier "test-uuid-7". -/
def cstoreC8 : Store :=
  { stations := [{ station_id := "test-uuid-7", name := "Foo", latitude := 0, longitude := 0 }],
    mapping := [{ uuid_station_id := "test-uuid-7", numeric_station_id := 1, station_name := "Foo" }],
    trips := [] }

/-- Fixture: a 36-character string with hyphens in the canonical positions but
no hexadecimal digits at all. -/
def zStr : String := "zzzzzzzz-zzzz-zzzz-zzzz-zzzzzzzzzzzz"

theorem fdiv_natCast_natCast (a b : ℕ) : Int.fdiv (a : ℤ) (b : ℤ) = ((a / b : ℕ) : ℤ) := by
  rw [← Int.ofNat_eq_natCast, ← Int.ofNat_eq_natCast, ← Int.ofNat_eq_natCast]
  cases a <;> cases b <;> simp [Int.fdiv]

theorem roundQ_natCast (n : ℕ) : roundQ (n : ℚ) = (n : ℤ) := by
  unfold roundQ
  rw [Rat.num_natCast, Rat.den_natCast]
  have h2 : (2 * (n : ℤ) + ((1 : ℕ) : ℤ)) = ((2 * n + 1 : ℕ) : ℤ) := by push_cast; ring
  have h3 : (2 * ((1 : ℕ) : ℤ)) = ((2 : ℕ) : ℤ) := by norm_num
  rw [h2, h3, fdiv_natCast_natCast]
  have h4 : (2 * n + 1) / 2 = n := by omega
  rw [h4]

theorem formatPercent_eq_of (x : ℚ) (n : ℕ) (h : x * 1000 = (n : ℚ)) :
    formatPercent x = toString (n / 10) ++ "." ++ toString (n % 10) ++ "%" := by
  unfold formatPercent
  rw [h, roundQ_natCast, Int.toNat_natCast]

/-- C1: the encounter probability is the exact closed-form heuristic of §4.4 —
zero when `total_trips` or `unique_bikes` is zero, otherwise the clamped
product of the capped turnover base, the capped frequency multiplier, the
return-rate multiplier and the time-pattern multiplier; in particular the §8
scenario-2 inputs give exactly 0.3. -/
theorem C1_encounter_probability_formula (hs : StationStats) (bp : Option BikePatterns)
    (rf : ℤ) (tp : String) :
    (hs.total_trips = 0 ∨ hs.unique_bikes = 0 →
      calculate_encounter_probability hs bp rf tp = 0) ∧
    (hs.total_trips ≠ 0 → hs.unique_bikes ≠ 0 →
      calculate_encounter_probability hs bp rf tp =
        max 0 (min 1
          (min 0.3 (((hs.total_trips : ℚ) / (hs.unique_bikes : ℚ)) / 1000) *
           min 2 ((rf : ℚ) / 5) *
           (1 + 2 * dictGetReturnRate bp) *
           (if tp = "weekday" then 1.2 else if tp = "weekend" then 0.8 else 1)))) ∧
    calculate_encounter_probability scenario2Station scenario2Patterns 5 "both" = 0.3 := by
  refine ⟨?_, ?_, ?_⟩
  · intro h
    simp only [calculate_encounter_probability, if_pos h]
  · intro h1 h2
    simp only [calculate_encounter_probability]
    rw [if_neg (by tauto)]
    ring_nf
  · simp only [calculate_encounter_probability, scenario2Station, scenario2Patterns,
      dictGetReturnRate]
    rw [if_neg (by decide), if_neg (by decide), if_neg (by decide)]
    norm_num [min_def, max_def]

/-- C7: for valid inputs (return rate in `[0,1]`, positive frequency, an
enumerated time pattern) the computed probability lies in `[0, 1]`. -/
theorem C7_probability_in_unit_interval (hs : StationStats) (bp : Option BikePatterns)
    (rf : ℤ) (tp : String)
    (hr0 : 0 ≤ dictGetReturnRate bp) (hr1 : dictGetReturnRate bp ≤ 1)
    (hf : 0 < rf) (htp : tp = "weekday" ∨ tp = "weekend" ∨ tp = "both") :
    0 ≤ calculate_encounter_probability hs bp rf tp ∧
      calculate_encounter_probability hs bp rf tp ≤ 1 := by
  unfold calculate_encounter_probability
  split
  · norm_num
  · constructor
    · exact le_max_left 0 _
    · exact max_le (by norm_num) (min_le_left 1 _)

/-- C9: with station statistics, bike return rate and time pattern held fixed,
raising the riding frequency within `1..5` (so that `frequency/5 < 2`) does
not decrease the probability. -/
theorem C9_probability_monotone_in_frequency (hs : StationStats) (bp : Option BikePatterns)
    (tp : String) (f1 f2 : ℤ)
    (h1 : 1 ≤ f1) (h12 : f1 ≤ f2) (h5 : f2 ≤ 5)
    (hr0 : 0 ≤ dictGetReturnRate bp) :
    calculate_encounter_probability hs bp f1 tp ≤
      calculate_encounter_probability hs bp f2 tp := by
  unfold calculate_encounter_probability
  split
  · exact le_refl 0
  · have hbase : (0 : ℚ) ≤ min 0.3 (((hs.total_trips : ℚ) / (hs.unique_bikes : ℚ)) / 1000) := by
      apply le_min (by norm_num)
      positivity
    have hret : (0 : ℚ) ≤ 1 + dictGetReturnRate bp * 2 := by positivity
    have htime : (0 : ℚ) ≤ (if tp = "weekday" then 1.2 else if tp = "weekend" then 0.8 else 1) := by
      split <;> norm_num
      split <;> norm_num
    have hfreq : min 2 ((f1 : ℚ) / 5) ≤ min 2 ((f2 : ℚ) / 5) := by
      apply min_le_min (le_refl 2)
      have : (f1 : ℚ) ≤ (f2 : ℚ) := by exact_mod_cast h12
      linarith
    apply max_le_max (le_refl 0)
    apply min_le_min (le_refl 1)
    apply mul_le_mul_of_nonneg_right _ htime
    apply mul_le_mul_of_nonneg_right _ hret
    exact mul_le_mul_of_nonneg_left hfreq hbase

/-- C2 counterexample: at 500 total trips the claimed `>10000/>1000` tiering
prescribes margin 0.10, but the code computes margin 0.02: the produced
interval string differs from the claimed one. -/
theorem C2_counterexample :
    calculate_confidence_interval (1/2) station500 = "48.0% to 52.0%" ∧
    claimedConfidenceInterval (1/2) station500 = "40.0% to 60.0%" ∧
    calculate_confidence_interval (1/2) station500 ≠
      claimedConfidenceInterval (1/2) station500 := by
  have h1 : calculate_confidence_interval (1/2) station500 = "48.0% to 52.0%" := by
    simp only [calculate_confidence_interval, station500]
    rw [if_neg (by decide), if_neg (by decide)]
    rw [show max (0:ℚ) (1/2 - 0.02) = 0.48 by norm_num [max_def],
        show min (1:ℚ) (1/2 + 0.02) = 0.52 by norm_num [min_def],
        formatPercent_eq_of 0.48 480 (by norm_num),
        formatPercent_eq_of 0.52 520 (by norm_num)]
    decide
  have h2 : claimedConfidenceInterval (1/2) station500 = "40.0% to 60.0%" := by
    simp only [claimedConfidenceInterval, claimedMargin, station500]
    rw [if_neg (by decide), if_neg (by decide)]
    rw [show max (0:ℚ) (1/2 - 0.1) = 0.4 by norm_num [max_def],
        show min (1:ℚ) (1/2 + 0.1) = 0.6 by norm_num [min_def],
        formatPercent_eq_of 0.4 400 (by norm_num),
        formatPercent_eq_of 0.6 600 (by norm_num)]
    decide
  refine ⟨h1, h2, ?_⟩
  rw [h1, h2]
  decide

/-- C2 amended: the margin tiering the code actually uses is
`total_trips < 10 → 0.10`, `< 100 → 0.05`, else `0.02`; the bounds are the
clamped `probability ∓ margin` and the result is the formatted string
`"{lower:.1%} to {upper:.1%}"`. -/
theorem C2_amended_confidence_tiering (probability : ℚ) (hs : StationStats) :
    calculate_confidence_interval probability hs =
      formatPercent (max 0 (probability -
        (if hs.total_trips < 10 then 0.1 else if hs.total_trips < 100 then 0.05 else 0.02)))
      ++ " to " ++
      formatPercent (min 1 (probability +
        (if hs.total_trips < 10 then 0.1 else if hs.total_trips < 100 then 0.05 else 0.02))) := by
  simp only [calculate_confidence_interval]

/-- C3: the return-rate computation degrades through its tiers — a failing
simplified query falls through to the turnover estimate
`clamp(1/(total_trips/unique_bikes), 0, 0.5)`, a failing fallback query yields
the constant 0.10 — and the returned rate always lies in `[0, 1]`. -/
theorem C3_return_rate_cascade (store : Store) (nsid : Nat) (tp : String) :
    (store.simplifiedQueryFails = true →
      calculate_bike_return_rate_simplified store nsid tp =
        calculate_bike_return_rate_fallback store nsid tp) ∧
    (store.fallbackQueryFails = true →
      calculate_bike_return_rate_fallback store nsid tp = 0.1) ∧
    (store.fallbackQueryFails = false →
      calculate_bike_return_rate_fallback store nsid tp =
        (if 0 < ((stationTrips store nsid tp).map Trip.bike_id).dedup.length then
          max 0 (min 0.5 (1 / (((stationTrips store nsid tp).length : ℚ) /
            (((stationTrips store nsid tp).map Trip.bike_id).dedup.length : ℚ))))
        else 0)) ∧
    0 ≤ calculate_bike_return_rate_simplified store nsid tp ∧
    calculate_bike_return_rate_simplified store nsid tp ≤ 1 := by
  have hfb0 : 0 ≤ calculate_bike_return_rate_fallback store nsid tp := by
    simp only [calculate_bike_return_rate_fallback]
    split
    · norm_num
    · split
      · exact le_max_left 0 _
      · exact le_refl 0
  have hfb1 : calculate_bike_return_rate_fallback store nsid tp ≤ 1 := by
    simp only [calculate_bike_return_rate_fallback]
    split
    · norm_num
    · split
      · exact max_le (by norm_num) (le_trans (min_le_left _ _) (by norm_num))
      · norm_num
  refine ⟨?_, ?_, ?_, ?_, ?_⟩
  · intro h
    simp only [calculate_bike_return_rate_simplified]
    rw [if_pos h]
  · intro h
    simp only [calculate_bike_return_rate_fallback]
    rw [if_pos h]
  · intro h
    simp only [calculate_bike_return_rate_fallback, gt_iff_lt]
    rw [if_neg (by simp [h])]
  · simp only [calculate_bike_return_rate_simplified]
    split
    · exact hfb0
    · split
      · positivity
      · exact le_refl 0
  · simp only [calculate_bike_return_rate_simplified]
    split
    · exact hfb1
    · split
      · rename_i h
        rw [div_le_one (by exact_mod_cast h)]
        exact_mod_cast List.length_filter_le _ _
      · norm_num

/-- C4: whatever the store contents, a non-positive riding frequency raises the
frequency `ValueError` and an unrecognized time pattern raises the time-pattern
`ValueError`, both before any store access (the conclusion holds for every
store); with a valid frequency and pattern, the only `ValueError` the engine
can produce is a station-not-found message. -/
theorem C4_input_validation (store : Store) (home : String) (rf : ℤ) (tp : String) :
    (rf ≤ 0 →
      calculate_bike_movement_probability store home rf tp =
        .error (.valueError "Riding frequency must be a positive number")) ∧
    (0 < rf → ¬(tp = "weekday" ∨ tp = "weekend" ∨ tp = "both") →
      calculate_bike_movement_probability store home rf tp =
        .error (.valueError "Time pattern must be one of: weekday, weekend, both")) ∧
    (0 < rf → (tp = "weekday" ∨ tp = "weekend" ∨ tp = "both") →
      ∀ msg, calculate_bike_movement_probability store home rf tp = .error (.valueError msg) →
        ∃ s, msg = "Station '" ++ s ++ "' not found in database") := by
  refine ⟨?_, ?_, ?_⟩
  · intro h
    simp only [calculate_bike_movement_probability]
    rw [if_pos h]
  · intro h1 h2
    simp only [calculate_bike_movement_probability]
    rw [if_neg (not_le.mpr h1), if_pos h2]
  · intro h1 h2 msg heq
    simp only [calculate_bike_movement_probability] at heq
    rw [if_neg (not_le.mpr h1), if_neg (not_not_intro h2)] at heq
    split at heq
    · rename_i e hres
      simp only [Except.error.injEq] at heq
      subst heq
      unfold resolve_station_identifier at hres
      by_cases hu : is_uuid_format home
      · rw [if_pos hu] at hres
        exact absurd hres (by simp)
      · rw [if_neg hu] at hres
        unfold get_uuid_by_station_name at hres
        by_cases hq : store.nameQueryFails = true
        · rw [if_pos hq] at hres
          simp only [Except.error.injEq] at hres
          exact absurd hres.symm (by simp)
        · rw [if_neg hq] at hres
          cases hrow : store.mapping.find? (fun sm => sm.station_name == home) with
          | some row =>
            rw [hrow] at hres
            exact absurd hres (by simp)
          | none =>
            rw [hrow] at hres
            simp only [Except.error.injEq, PyError.valueError.injEq] at hres
            exact ⟨home, hres.symm⟩
    · rename_i uuid hres
      split at heq
      · simp only [Except.error.injEq, PyError.valueError.injEq] at heq
        exact ⟨home, heq.symm⟩
      · exact absurd heq (by simp)

/-- C6 counterexample: in a store whose station-statistics query raises (for a
station that exists and is reachable through the mapping table), the engine
does not surface an internal/server error — the swallowed query failure
resurfaces as the station-not-found `ValueError`, which the HTTP layer maps
to a 400 client error rather than a 500. -/
theorem C6_counterexample :
    calculate_bike_movement_probability cstoreC6 "test-uuid-1" 5 "both" =
      .error (.valueError "Station 'test-uuid-1' not found in database") ∧
    endpointStatus (calculate_bike_movement_probability cstoreC6 "test-uuid-1" 5 "both") = 400 := by
  have he : calculate_bike_movement_probability cstoreC6 "test-uuid-1" 5 "both" =
      .error (.valueError "Station 'test-uuid-1' not found in database") := by
    simp only [calculate_bike_movement_probability]
    rw [if_neg (by decide), if_neg (by decide)]
    unfold resolve_station_identifier
    rw [if_pos (by decide)]
    have hstats : load_station_statistics cstoreC6 = [] := by
      unfold load_station_statistics
      rw [if_pos (by decide : cstoreC6.statsQueryFails = true)]
    rw [hstats]
    rfl
  exact ⟨he, by rw [he]; rfl⟩

/-- C6 amended: whenever the station-statistics query raises, a request with
valid inputs and a UUID-shaped identifier ends in the station-not-found
`ValueError` (a client error), because `load_station_statistics` swallows the
failure and returns an empty statistics map; the failure never propagates as
an internal error and the query is not retried. -/
theorem C6_amended_stats_failure_becomes_not_found (store : Store) (home : String)
    (rf : ℤ) (tp : String)
    (hfail : store.statsQueryFails = true) (hf : 0 < rf)
    (htp : tp = "weekday" ∨ tp = "weekend" ∨ tp = "both")
    (hu : is_uuid_format home = true) :
    calculate_bike_movement_probability store home rf tp =
      .error (.valueError ("Station '" ++ home ++ "' not found in database")) := by
  simp only [calculate_bike_movement_probability]
  rw [if_neg (not_le.mpr hf), if_neg (not_not_intro htp)]
  unfold resolve_station_identifier
  rw [if_pos hu]
  have hstats : load_station_statistics store = [] := by
    unfold load_station_statistics
    rw [if_pos hfail]
  rw [hstats]
  rfl

/-- C10: validation failures and station-not-found failures carry the same
exception type (`ValueError`), distinguishable only by message text; the HTTP
layer maps any `ValueError` to status 400 and any other exception to 500, so
both an invalid input and an unknown station produce a 400. -/
theorem C10_error_types_conflated (store : Store) (home : String) (rf : ℤ) (tp : String) :
    (rf ≤ 0 →
      ∃ m, calculate_bike_movement_probability store home rf tp = .error (.valueError m) ∧
        endpointStatus (calculate_bike_movement_probability store home rf tp) = 400) ∧
    (0 < rf → ¬(tp = "weekday" ∨ tp = "weekend" ∨ tp = "both") →
      ∃ m, calculate_bike_movement_probability store home rf tp = .error (.valueError m) ∧
        endpointStatus (calculate_bike_movement_probability store home rf tp) = 400) ∧
    (0 < rf → (tp = "weekday" ∨ tp = "weekend" ∨ tp = "both") →
      is_uuid_format home = false → store.nameQueryFails = false →
      store.mapping.find? (fun sm => sm.station_name == home) = none →
      calculate_bike_movement_probability store home rf tp =
        .error (.valueError ("Station '" ++ home ++ "' not found in database")) ∧
        endpointStatus (calculate_bike_movement_probability store home rf tp) = 400) ∧
    (∀ m, endpointStatus (.error (.valueError m)) = 400) ∧
    (∀ m, endpointStatus (.error (.otherError m)) = 500) := by
  refine ⟨?_, ?_, ?_, fun m => rfl, fun m => rfl⟩
  · intro h
    have he : calculate_bike_movement_probability store home rf tp =
        .error (.valueError "Riding frequency must be a positive number") := by
      simp only [calculate_bike_movement_probability]
      rw [if_pos h]
    exact ⟨_, he, by rw [he]; rfl⟩
  · intro h1 h2
    have he : calculate_bike_movement_probability store home rf tp =
        .error (.valueError "Time pattern must be one of: weekday, weekend, both") := by
      simp only [calculate_bike_movement_probability]
      rw [if_neg (not_le.mpr h1), if_pos h2]
    exact ⟨_, he, by rw [he]; rfl⟩
  · intro h1 h2 hu hq hrow
    have he : calculate_bike_movement_probability store home rf tp =
        .error (.valueError ("Station '" ++ home ++ "' not found in database")) := by
      simp only [calculate_bike_movement_probability]
      rw [if_neg (not_le.mpr h1), if_neg (not_not_intro h2)]
      unfold resolve_station_identifier
      rw [if_neg (by simp [hu])]
      unfold get_uuid_by_station_name
      rw [if_neg (by simp [hq]), hrow]
    exact ⟨he, by rw [he]; rfl⟩

/-- C8: a station reachable both by a (non-UUID-shaped) name and by its mapped
UUID-shaped identifier yields identical results for identical frequency and
pattern over an unchanged store. -/
theorem C8_name_and_uuid_agree (store : Store) (station_name : String) (row : MappingRow)
    (rf : ℤ) (tp : String) (hs : StationStats)
    (hq : store.nameQueryFails = false)
    (hn : is_uuid_format station_name = false)
    (hrow : store.mapping.find? (fun sm => sm.station_name == station_name) = some row)
    (hu : is_uuid_format row.uuid_station_id = true)
    (hl : lookupStats (load_station_statistics store) row.uuid_station_id = some hs) :
    calculate_bike_movement_probability store station_name rf tp =
      calculate_bike_movement_probability store row.uuid_station_id rf tp := by
  simp only [calculate_bike_movement_probability]
  by_cases h1 : rf ≤ 0
  · rw [if_pos h1, if_pos h1]
  · rw [if_neg h1, if_neg h1]
    by_cases h2 : tp = "weekday" ∨ tp = "weekend" ∨ tp = "both"
    · rw [if_neg (not_not_intro h2), if_neg (not_not_intro h2)]
      have hres1 : resolve_station_identifier store station_name = .ok row.uuid_station_id := by
        unfold resolve_station_identifier
        rw [if_neg (by simp [hn])]
        unfold get_uuid_by_station_name
        rw [if_neg (by simp [hq]), hrow]
      have hres2 : resolve_station_identifier store row.uuid_station_id =
          .ok row.uuid_station_id := by
        unfold resolve_station_identifier
        rw [if_pos hu]
      rw [hres1, hres2]
      simp only [hl]
    · rw [if_pos h2, if_pos h2]

theorem splitOnChar_ne_nil (sep : Char) (l : List Char) : splitOnChar sep l ≠ [] := by
  cases l with
  | nil => simp [splitOnChar]
  | cons x xs =>
    simp only [splitOnChar]
    split <;> simp

theorem length_splitOnChar (sep : Char) (l : List Char) :
    (splitOnChar sep l).length = l.count sep + 1 := by
  induction l with
  | nil => simp [splitOnChar]
  | cons x xs ih =>
    simp only [splitOnChar]
    cases h : splitOnChar sep xs with
    | nil => exact absurd h (splitOnChar_ne_nil sep xs)
    | cons hd tl =>
      rw [h] at ih
      by_cases hx : x = sep
      · rw [if_pos hx, List.count_cons]
        simp only [List.length_cons] at ih ⊢
        simp [hx]
        omega
      · rw [if_neg hx, List.count_cons]
        simp only [List.headI, List.tail_cons, List.length_cons] at ih ⊢
        have hc : (if (x == sep) = true then 1 else 0) = 0 := by simp [hx]
        omega

theorem splitOnChar_of_not_mem (sep : Char) (l : List Char) (h : sep ∉ l) :
    splitOnChar sep l = [l] := by
  induction l with
  | nil => rfl
  | cons x xs ih =>
    have hx : x ≠ sep := fun hc => h (by simp [hc])
    have hxs : sep ∉ xs := fun hc => h (by simp [hc])
    simp only [splitOnChar, ih hxs]
    rw [if_neg hx]
    rfl

theorem splitOnChar_append (sep : Char) (a b : List Char) (h : sep ∉ a) :
    splitOnChar sep (a ++ sep :: b) = a :: splitOnChar sep b := by
  induction a with
  | nil =>
    simp only [List.nil_append, splitOnChar]
    simp
  | cons x a' ih =>
    have hx : x ≠ sep := fun hc => h (by simp [hc])
    have ha' : sep ∉ a' := fun hc => h (by simp [hc])
    rw [List.cons_append]
    simp only [splitOnChar]
    rw [ih ha', if_neg hx]
    rfl

theorem interJoin_five (sep : Char) (a b c d e : List Char) :
    interJoin sep [a, b, c, d, e] = a ++ sep :: (b ++ sep :: (c ++ sep :: (d ++ sep :: e))) := rfl

theorem interJoin_splitOnChar (sep : Char) (l : List Char) :
    interJoin sep (splitOnChar sep l) = l := by
  induction l with
  | nil => rfl
  | cons x xs ih =>
    simp only [splitOnChar]
    cases h : splitOnChar sep xs with
    | nil => exact absurd h (splitOnChar_ne_nil sep xs)
    | cons hd tl =>
      rw [h] at ih
      by_cases hx : x = sep
      · rw [if_pos hx, hx]
        cases tl with
        | nil => simp only [interJoin, List.nil_append] at ih ⊢; rw [ih]
        | cons t ts => simp only [interJoin, List.nil_append] at ih ⊢; rw [ih]
      · rw [if_neg hx]
        cases tl with
        | nil =>
          simp only [interJoin, List.headI, List.tail_cons] at ih ⊢
          rw [← ih]
        | cons t ts =>
          simp only [interJoin, List.headI, List.tail_cons, List.cons_append] at ih ⊢
          rw [← ih]

theorem not_mem_of_mem_splitOnChar (sep : Char) (l : List Char) (p : List Char)
    (hp : p ∈ splitOnChar sep l) : sep ∉ p := by
  induction l generalizing p with
  | nil =>
    simp only [splitOnChar, List.mem_singleton] at hp
    subst hp
    simp
  | cons x xs ih =>
    simp only [splitOnChar] at hp
    cases h : splitOnChar sep xs with
    | nil => exact absurd h (splitOnChar_ne_nil sep xs)
    | cons hd tl =>
      rw [h] at hp
      by_cases hx : x = sep
      · rw [if_pos hx] at hp
        rcases List.mem_cons.mp hp with h1 | h2
        · subst h1; simp
        · exact ih p (by rw [h]; exact h2)
      · rw [if_neg hx] at hp
        simp only [List.headI, List.tail_cons] at hp
        rcases List.mem_cons.mp hp with h1 | h2
        · subst h1
          intro hmem
          rcases List.mem_cons.mp hmem with h3 | h4
          · exact hx h3.symm
          · exact ih hd (by rw [h]; exact List.mem_cons_self hd tl) h4
        · exact ih p (by rw [h]; exact List.mem_cons_of_mem hd h2)

theorem getElem?_ne_some_of_not_mem {c : Char} {p : List Char} (h : c ∉ p) (j : Nat) :
    p[j]? ≠ some c :=
  fun hj => h (List.getElem?_mem hj)

theorem getElem?_append_sep_iff (sep : Char) (a b : List Char) (ha : sep ∉ a) (i : Nat) :
    ((a ++ sep :: b)[i]? = some sep) ↔
      (i = a.length ∨ (a.length + 1 ≤ i ∧ b[i - (a.length + 1)]? = some sep)) := by
  rcases lt_trichotomy i a.length with hlt | heq | hgt
  · rw [List.getElem?_append_left hlt]
    constructor
    · intro hc
      exact absurd hc (getElem?_ne_some_of_not_mem ha i)
    · rintro (h1 | ⟨h2, _⟩) <;> omega
  · subst heq
    rw [List.getElem?_append_right (le_refl _)]
    simp
  · rw [List.getElem?_append_right (le_of_lt hgt)]
    obtain ⟨k, hk⟩ : ∃ k, i - a.length = k + 1 := ⟨i - a.length - 1, by omega⟩
    rw [hk, List.getElem?_cons_succ]
    constructor
    · intro hc
      exact Or.inr ⟨by omega, by rw [show i - (a.length + 1) = k by omega]; exact hc⟩
    · rintro (h1 | ⟨h2, h3⟩)
      · omega
      · rw [show k = i - (a.length + 1) by omega]
        exact h3

theorem eq_take_append_cons_drop (l : List Char) (n : Nat) (c : Char) (h : l[n]? = some c) :
    l = l.take n ++ c :: l.drop (n + 1) := by
  obtain ⟨hn, hg⟩ := List.getElem?_eq_some.mp h
  conv_lhs => rw [← List.take_append_drop n l]
  rw [List.drop_eq_getElem_cons hn, hg]

theorem list_length_five {α : Type} {l : List α} (h : l.length = 5) :
    ∃ a b c d e, l = [a, b, c, d, e] := by
  match l, h with
  | [a, b, c, d, e], _ => exact ⟨a, b, c, d, e, rfl⟩

theorem canonical_iff (l : List Char) :
    (l.length = 36 ∧ l.count '-' = 4 ∧
      ∃ p0 p1 p2 p3 p4, splitOnChar '-' l = [p0, p1, p2, p3, p4] ∧
        p0.length = 8 ∧ p1.length = 4 ∧ p2.length = 4 ∧ p3.length = 4 ∧ p4.length = 12) ↔
    (l.length = 36 ∧ ∀ i, i < 36 → ((l[i]? = some '-') ↔ hyphenPosition i)) := by
  constructor
  · rintro ⟨h36, hcnt, p0, p1, p2, p3, p4, hsplit, e0, e1, e2, e3, e4⟩
    refine ⟨h36, ?_⟩
    have hfree0 : '-' ∉ p0 := not_mem_of_mem_splitOnChar '-' l p0 (by rw [hsplit]; simp)
    have hfree1 : '-' ∉ p1 := not_mem_of_mem_splitOnChar '-' l p1 (by rw [hsplit]; simp)
    have hfree2 : '-' ∉ p2 := not_mem_of_mem_splitOnChar '-' l p2 (by rw [hsplit]; simp)
    have hfree3 : '-' ∉ p3 := not_mem_of_mem_splitOnChar '-' l p3 (by rw [hsplit]; simp)
    have hfree4 : '-' ∉ p4 := not_mem_of_mem_splitOnChar '-' l p4 (by rw [hsplit]; simp)
    have hj := interJoin_splitOnChar '-' l
    rw [hsplit, interJoin_five] at hj
    intro i hi
    have h4 : ∀ j, (p4[j]? = some '-') ↔ False :=
      fun j => iff_false_intro (getElem?_ne_some_of_not_mem hfree4 j)
    rw [← hj, getElem?_append_sep_iff '-' p0 _ hfree0,
        getElem?_append_sep_iff '-' p1 _ hfree1,
        getElem?_append_sep_iff '-' p2 _ hfree2,
        getElem?_append_sep_iff '-' p3 _ hfree3, h4, e0, e1, e2, e3]
    simp only [hyphenPosition, and_false, or_false]
    omega
  · rintro ⟨h36, hpos⟩
    have h8 : l[8]? = some '-' := (hpos 8 (by omega)).mpr (by simp [hyphenPosition])
    have h13 : l[13]? = some '-' := (hpos 13 (by omega)).mpr (by simp [hyphenPosition])
    have h18 : l[18]? = some '-' := (hpos 18 (by omega)).mpr (by simp [hyphenPosition])
    have h23 : l[23]? = some '-' := (hpos 23 (by omega)).mpr (by simp [hyphenPosition])
    have e13 : (l.drop 9)[4]? = some '-' := by
      rw [List.getElem?_drop]
      simpa using h13
    have e18 : (l.drop 14)[4]? = some '-' := by
      rw [List.getElem?_drop]
      simpa using h18
    have e23 : (l.drop 19)[4]? = some '-' := by
      rw [List.getElem?_drop]
      simpa using h23
    have d8 : l = l.take 8 ++ '-' :: l.drop 9 := by
      have h' := eq_take_append_cons_drop l 8 '-' h8
      norm_num at h'
      exact h'
    have d13 : l.drop 9 = (l.drop 9).take 4 ++ '-' :: l.drop 14 := by
      have h' := eq_take_append_cons_drop (l.drop 9) 4 '-' e13
      rw [List.drop_drop] at h'
      norm_num at h'
      exact h'
    have d18 : l.drop 14 = (l.drop 14).take 4 ++ '-' :: l.drop 19 := by
      have h' := eq_take_append_cons_drop (l.drop 14) 4 '-' e18
      rw [List.drop_drop] at h'
      norm_num at h'
      exact h'
    have d23 : l.drop 19 = (l.drop 19).take 4 ++ '-' :: l.drop 24 := by
      have h' := eq_take_append_cons_drop (l.drop 19) 4 '-' e23
      rw [List.drop_drop] at h'
      norm_num at h'
      exact h'
    have hfA : '-' ∉ l.take 8 := by
      intro hm
      obtain ⟨j, hj⟩ := List.mem_iff_getElem?.mp hm
      rw [List.getElem?_take] at hj
      by_cases hjb : j < 8
      · rw [if_pos hjb] at hj
        have hh := (hpos j (by omega)).mp hj
        simp only [hyphenPosition] at hh
        omega
      · rw [if_neg hjb] at hj
        exact absurd hj (by simp)
    have hfB : '-' ∉ (l.drop 9).take 4 := by
      intro hm
      obtain ⟨j, hj⟩ := List.mem_iff_getElem?.mp hm
      rw [List.getElem?_take] at hj
      by_cases hjb : j < 4
      · rw [if_pos hjb, List.getElem?_drop] at hj
        have hh := (hpos (9 + j) (by omega)).mp hj
        simp only [hyphenPosition] at hh
        omega
      · rw [if_neg hjb] at hj
        exact absurd hj (by simp)
    have hfC : '-' ∉ (l.drop 14).take 4 := by
      intro hm
      obtain ⟨j, hj⟩ := List.mem_iff_getElem?.mp hm
      rw [List.getElem?_take] at hj
      by_cases hjb : j < 4
      · rw [if_pos hjb, List.getElem?_drop] at hj
        have hh := (hpos (14 + j) (by omega)).mp hj
        simp only [hyphenPosition] at hh
        omega
      · rw [if_neg hjb] at hj
        exact absurd hj (by simp)
    have hfD : '-' ∉ (l.drop 19).take 4 := by
      intro hm
      obtain ⟨j, hj⟩ := List.mem_iff_getElem?.mp hm
      rw [List.getElem?_take] at hj
      by_cases hjb : j < 4
      · rw [if_pos hjb, List.getElem?_drop] at hj
        have hh := (hpos (19 + j) (by omega)).mp hj
        simp only [hyphenPosition] at hh
        omega
      · rw [if_neg hjb] at hj
        exact absurd hj (by simp)
    have hfE : '-' ∉ l.drop 24 := by
      intro hm
      obtain ⟨j, hj⟩ := List.mem_iff_getElem?.mp hm
      rw [List.getElem?_drop] at hj
      have hlt : 24 + j < l.length := (List.getElem?_eq_some.mp hj).1
      have hh := (hpos (24 + j) (by omega)).mp hj
      simp only [hyphenPosition] at hh
      omega
    have base := d8
    rw [d13] at base
    rw [d18] at base
    rw [d23] at base
    have hsplit : splitOnChar '-' l =
        [l.take 8, (l.drop 9).take 4, (l.drop 14).take 4, (l.drop 19).take 4, l.drop 24] := by
      conv_lhs => rw [base]
      rw [splitOnChar_append '-' _ _ hfA, splitOnChar_append '-' _ _ hfB,
          splitOnChar_append '-' _ _ hfC, splitOnChar_append '-' _ _ hfD,
          splitOnChar_of_not_mem '-' _ hfE]
    have hlen5 : (splitOnChar '-' l).length = 5 := by rw [hsplit]; rfl
    have hcnt : l.count '-' = 4 := by
      have hc := length_splitOnChar '-' l
      rw [hlen5] at hc
      omega
    refine ⟨h36, hcnt, l.take 8, (l.drop 9).take 4, (l.drop 14).take 4, (l.drop 19).take 4,
      l.drop 24, hsplit, ?_, ?_, ?_, ?_, ?_⟩
    · rw [List.length_take, h36]
      omega
    · rw [List.length_take, List.length_drop, h36]
      omega
    · rw [List.length_take, List.length_drop, h36]
      omega
    · rw [List.length_take, List.length_drop, h36]
      omega
    · rw [List.length_drop, h36]

theorem is_uuid_format_iff (s : String) :
    is_uuid_format s = true ↔
      (("test-uuid-".data.isPrefixOf s.data = true ∧ s.data.count '-' = 2) ∨
       (s.data.length = 36 ∧ s.data.count '-' = 4 ∧
         ∃ p0 p1 p2 p3 p4, splitOnChar '-' s.data = [p0, p1, p2, p3, p4] ∧
           p0.length = 8 ∧ p1.length = 4 ∧ p2.length = 4 ∧ p3.length = 4 ∧ p4.length = 12)) := by
  unfold is_uuid_format
  by_cases ht : ("test-uuid-".data.isPrefixOf s.data && s.data.count '-' == 2) = true
  · rw [if_pos ht]
    simp only [Bool.and_eq_true, beq_iff_eq] at ht
    constructor
    · intro _
      exact Or.inl ⟨ht.1, ht.2⟩
    · intro _
      rfl
  · rw [if_neg ht]
    by_cases hc : (s.data.length == 36 && s.data.count '-' == 4) = true
    · rw [if_pos hc]
      simp only [Bool.and_eq_true, beq_iff_eq] at hc
      obtain ⟨h36, hcnt⟩ := hc
      have hlen5 : (splitOnChar '-' s.data).length = 5 := by
        rw [length_splitOnChar, hcnt]
      obtain ⟨p0, p1, p2, p3, p4, hsplit⟩ := list_length_five hlen5
      rw [hsplit]
      constructor
      · intro h
        simp only [Bool.and_eq_true, beq_iff_eq] at h
        obtain ⟨⟨⟨⟨e0, e1⟩, e2⟩, e3⟩, e4⟩ := h
        exact Or.inr ⟨h36, hcnt, p0, p1, p2, p3, p4, rfl, e0, e1, e2, e3, e4⟩
      · rintro (hl | ⟨_, _, q0, q1, q2, q3, q4, hq, f0, f1, f2, f3, f4⟩)
        · exact absurd (by simp [hl.1, hl.2]) ht
        · obtain ⟨g0, g1, g2, g3, g4⟩ : p0 = q0 ∧ p1 = q1 ∧ p2 = q2 ∧ p3 = q3 ∧ p4 = q4 := by
            simpa using hq
          subst g0
          subst g1
          subst g2
          subst g3
          subst g4
          simp [f0, f1, f2, f3, f4]
    · rw [if_neg hc]
      simp only [Bool.and_eq_true, beq_iff_eq, not_and] at hc ht
      constructor
      · intro h
        exact absurd h (by simp)
      · rintro (hl | ⟨h36, hcnt, _⟩)
        · exact absurd hl.2 (ht hl.1)
        · exact absurd hcnt (hc h36)

/-- C5 counterexample: the code accepts a 36-character identifier with hyphens
in the canonical positions but no hexadecimal digit anywhere, so "treated as a
UUID" is not equivalent to the claim's hexadecimal-layout-or-test-shorthand
predicate. -/
theorem C5_counterexample :
    is_uuid_format zStr = true ∧ ¬ claimUuidPredicate zStr := by
  constructor
  · decide
  · intro h
    rcases h with h | h
    · rcases h with ⟨h36, hpos, hhex⟩
      have := hhex 0 (by omega) (by simp [hyphenPosition])
      revert this
      decide
    · rcases h with ⟨hp, hcnt⟩
      revert hcnt
      decide

/-- C5 amended: a string is treated as a UUID iff it is the test-fixture
shorthand or matches the canonical 8-4-4-4-12 hyphenated layout — 36
characters with hyphens exactly at the canonical positions, the characters of
the five groups otherwise unconstrained (no hexadecimal check); every other
string goes through the exact-name mapping lookup. -/
theorem C5_amended_uuid_recognition (s : String) :
    (is_uuid_format s = true ↔ (testShorthand s ∨ amendedCanonical s)) ∧
    (is_uuid_format s = false →
      ∀ store, resolve_station_identifier store s = get_uuid_by_station_name store s) := by
  constructor
  · rw [is_uuid_format_iff]
    constructor
    · rintro (h | h)
      · exact Or.inl h
      · exact Or.inr ((canonical_iff s.data).mp h)
    · rintro (h | h)
      · exact Or.inl h
      · exact Or.inr ((canonical_iff s.data).mpr h)
  · intro h store
    unfold resolve_station_identifier
    rw [if_neg (by simp [h])]

theorem C1_witness :
    calculate_encounter_probability emptyStation scenario2Patterns 5 "both" = 0 :=
  (C1_encounter_probability_formula emptyStation scenario2Patterns 5 "both").1 (Or.inl rfl)

theorem C3_witness :
    calculate_bike_return_rate_simplified cstoreC3 1 "both" = 0.1 := by
  have h := C3_return_rate_cascade cstoreC3 1 "both"
  rw [h.1 rfl, h.2.1 rfl]

theorem C4_witness :
    calculate_bike_movement_probability store0 "Foo" 0 "both" =
      .error (.valueError "Riding frequency must be a positive number") ∧
    calculate_bike_movement_probability store0 "Foo" 5 "midweek" =
      .error (.valueError "Time pattern must be one of: weekday, weekend, both") :=
  ⟨(C4_input_validation store0 "Foo" 0 "both").1 (by decide),
   (C4_input_validation store0 "Foo" 5 "midweek").2.1 (by decide) (by decide)⟩

theorem C5_witness : is_uuid_format "test-uuid-1" = true :=
  (C5_amended_uuid_recognition "test-uuid-1").1.mpr (Or.inl ⟨by decide, by decide⟩)

theorem C6_witness :
    calculate_bike_movement_probability cstoreC6 "test-uuid-9" 5 "both" =
      .error (.valueError ("Station '" ++ "test-uuid-9" ++ "' not found in database")) :=
  C6_amended_stats_failure_becomes_not_found cstoreC6 "test-uuid-9" 5 "both"
    rfl (by decide) (Or.inr (Or.inr rfl)) (by decide)

theorem C7_witness :
    0 ≤ calculate_encounter_probability scenario2Station scenario2Patterns 5 "both" ∧
    calculate_encounter_probability scenario2Station scenario2Patterns 5 "both" ≤ 1 :=
  C7_probability_in_unit_interval scenario2Station scenario2Patterns 5 "both"
    (by simp [scenario2Patterns, dictGetReturnRate])
    (by simp [scenario2Patterns, dictGetReturnRate])
    (by decide) (Or.inr (Or.inr rfl))

theorem C8_witness :
    calculate_bike_movement_probability cstoreC8 "Foo" 3 "both" =
      calculate_bike_movement_probability cstoreC8 "test-uuid-7" 3 "both" :=
  C8_name_and_uuid_agree cstoreC8 "Foo"
    { uuid_station_id := "test-uuid-7", numeric_station_id := 1, station_name := "Foo" }
    3 "both"
    (stationAggregate cstoreC8
      { station_id := "test-uuid-7", name := "Foo", latitude := 0, longitude := 0 })
    rfl (by decide) rfl (by decide) rfl

theorem C9_witness :
    calculate_encounter_probability scenario2Station scenario2Patterns 1 "both" ≤
      calculate_encounter_probability scenario2Station scenario2Patterns 5 "both" :=
  C9_probability_monotone_in_frequency scenario2Station scenario2Patterns "both" 1 5
    (by decide) (by decide) (by decide)
    (by simp [scenario2Patterns, dictGetReturnRate])

theorem C10_witness :
    calculate_bike_movement_probability store0 "Nowhere" 2 "both" =
      .error (.valueError ("Station '" ++ "Nowhere" ++ "' not found in database")) ∧
    endpointStatus (calculate_bike_movement_probability store0 "Nowhere" 2 "both") = 400 :=
  (C10_error_types_conflated store0 "Nowhere" 2 "both").2.2.1 (by decide)
    (Or.inr (Or.inr rfl)) (by decide) rfl rfl
